import Mathlib

/-!
Shallow embedding of the Discord AI-moderation pipeline:
the storage layer (`MemStorage` in storage.ts), the classification client
(`analyzeMessage` in openai-client.ts) and the `messageCreate` handler of
`startBot` (bot.ts), including its five enforcement-action blocks.

External effects (the OpenAI round trip, every Discord API call, UUID and
clock) are modelled by an explicit environment `Env` whose fields record the
outcome each effectful call would have; the handler is then a pure function
of the message, the stored configuration, and that environment, returning
the updated log store together with an ordered trace of observable events.
-/

/-- JS truthiness of an optional string (`null`/`undefined` and `""` are falsy). -/
def strTruthy : Option String → Bool
  | none => false
  | some s => s != ""

/-- JS `s || d` for an optional string `s`: the default replaces `null`/`undefined` and `""`. -/
def strDefault (s : Option String) (d : String) : String :=
  match s with
  | none => d
  | some v => if v == "" then d else v

/-- JS `s || d` for a plain string `s` (only `""` is falsy). -/
def jsOr (s d : String) : String :=
  if s == "" then d else s

/-- JS `String.prototype.replace` with a string pattern: replaces only the
first occurrence of `pat` (assumed non-empty) in `s`. -/
def replaceFirst (s pat repl : String) : String :=
  match s.splitOn pat with
  | [] => s
  | [_] => s
  | a :: rest => a ++ repl ++ String.intercalate pat rest

/-- `mod_configs` row (shared/schema.ts): per-server enforcement configuration. -/
structure ModConfig where
  id : String
  serverId : String
  serverName : String
  sensitivity : String
  primaryAction : String
  enableWarn : Bool
  warnMessage : Option String
  enableLog : Bool
  logChannelId : Option String
  enableKick : Bool
  enableBan : Bool
  banDuration : Option Int
  customCommand : Option String
  monitoredChannels : Option (List String)
  monitorAllChannels : Bool
  deriving DecidableEq, Repr

/-- `moderation_logs` row (shared/schema.ts): one audit entry.
`timestamp` is the epoch-milliseconds value of the JS `Date`. -/
structure ModerationLog where
  id : String
  serverId : String
  serverName : String
  userId : String
  username : String
  userAvatar : Option String
  channelId : String
  channelName : String
  messageContent : String
  violationType : String
  confidenceScore : Int
  aiReasoning : String
  actionTaken : String
  timestamp : Nat
  deriving DecidableEq, Repr

/-- The fields of a discord.js `Message` that the handler reads.
`guildId`/`guildName`/`channelName` are optional because the corresponding
accessors can be `null`/`undefined` (DMs, non-text channels). -/
structure Message where
  authorIsBot : Bool
  authorId : String
  username : String
  userAvatar : Option String
  guildId : Option String
  guildName : Option String
  channelId : String
  channelName : Option String
  content : String
  deriving DecidableEq, Repr

/-- `ModerationResult` (openai-client.ts): the verdict returned by `analyzeMessage`. -/
structure ModerationResult where
  isViolation : Bool
  violationType : String
  confidenceScore : Int
  reasoning : String
  deriving DecidableEq, Repr

/-- The parsed JSON object of a successful OpenAI response; each field may be
absent (the code reads them with `|| default`). -/
structure RawResult where
  isViolation : Option Bool
  violationType : Option String
  confidenceScore : Option Int
  reasoning : Option String
  deriving DecidableEq, Repr

/-- Outcome of the one OpenAI round trip inside `analyzeMessage`: either the
whole `try` block throws (transport error, timeout, or a `JSON.parse`
failure), or it yields a parsed object. -/
inductive ClassifyOutcome where
  | failure
  | success (result : RawResult)
  deriving DecidableEq, Repr

/-- `analyzeMessage` (openai-client.ts): wraps one classification round trip;
on any thrown error it returns the fixed safe-default verdict, otherwise it
reads the parsed fields with JS `||` defaulting. -/
def analyzeMessage (message sensitivity : String) (outcome : ClassifyOutcome) :
    ModerationResult :=
  match outcome with
  | .failure =>
    { isViolation := false
      violationType := "none"
      confidenceScore := 0
      reasoning := "Error analyzing message" }
  | .success result =>
    { isViolation := result.isViolation.getD false
      violationType := strDefault result.violationType "none"
      confidenceScore := result.confidenceScore.getD 0
      reasoning := strDefault result.reasoning "No violation detected" }

/-- Outcome of `message.guild?.channels.fetch(logChannelId)`: the call can
throw, yield a falsy value (no guild, or the cast produced nothing), or
yield a usable text channel. -/
inductive FetchOutcome where
  | threw
  | notFound
  | found
  deriving DecidableEq, Repr

/-- Environment for one `messageCreate` invocation: the outcome every
external call would have, plus the fresh UUID and clock reading that
`MemStorage.createLog` would draw. -/
structure Env where
  analysisOutcome : ClassifyOutcome
  freshId : String
  now : Nat
  dmOk : Bool
  logFetch : FetchOutcome
  logSendOk : Bool
  memberInCache : Bool
  kickOk : Bool
  banOk : Bool
  customSendOk : Bool
  deleteOk : Bool
  deriving DecidableEq, Repr

/-- A Discord API call issued by one of the five enforcement-action blocks.
`ban` carries exactly the arguments the code passes: a reason and the fixed
`deleteMessageSeconds` history-purge window; the code passes no duration. -/
inductive PlatformCall where
  | sendDM (userId text : String)
  | fetchChannel (channelId : String)
  | sendChannelEmbed (channelId : String)
  | kick (userId reason : String)
  | ban (userId reason : String) (deleteMessageSeconds : Nat)
  | sendChannelMessage (channelId text : String)
  deriving DecidableEq, Repr

/-- Observable event of one `messageCreate` invocation, in program order. -/
inductive Event where
  | classify (text sensitivity : String)
  | createLog (entry : ModerationLog)
  | broadcast (entry : ModerationLog)
  | call (c : PlatformCall)
  | finalize (actionTaken : String)
  | deleteAttempt
  deriving DecidableEq, Repr

def Event.isClassify : Event → Bool
  | .classify _ _ => true
  | _ => false

def Event.isCreateLog : Event → Bool
  | .createLog _ => true
  | _ => false

def PlatformCall.isKickCall : PlatformCall → Bool
  | .kick _ _ => true
  | _ => false

def PlatformCall.isBanCall : PlatformCall → Bool
  | .ban _ _ _ => true
  | _ => false

/-- The "Warn user" block: guarded by `config.enableWarn && config.warnMessage`;
pushes `"warned"` iff the DM send does not throw. -/
def warnStep (config : ModConfig) (msg : Message) (env : Env) :
    List PlatformCall × List String :=
  if config.enableWarn && strTruthy config.warnMessage then
    ([.sendDM msg.authorId (config.warnMessage.getD "")],
     if env.dmOk then ["warned"] else [])
  else ([], [])

/-- The "Log to channel" block: guarded by `config.enableLog && config.logChannelId`;
fetches the channel (which may throw or come back falsy) and, when found,
sends the alert embed, pushing `"logged"` iff the send does not throw. -/
def logStep (config : ModConfig) (msg : Message) (env : Env) :
    List PlatformCall × List String :=
  if config.enableLog && strTruthy config.logChannelId then
    match env.logFetch with
    | .threw => ([.fetchChannel (config.logChannelId.getD "")], [])
    | .notFound => ([.fetchChannel (config.logChannelId.getD "")], [])
    | .found =>
      ([.fetchChannel (config.logChannelId.getD ""),
        .sendChannelEmbed (config.logChannelId.getD "")],
       if env.logSendOk then ["logged"] else [])
  else ([], [])

/-- The "Kick user" block: guarded by `config.enableKick`; the Discord call is
made only when `message.guild?.members.cache.get(message.author.id)` is
truthy, and `"kicked"` is pushed iff that call does not throw. -/
def kickStep (config : ModConfig) (msg : Message) (analysis : ModerationResult)
    (env : Env) : List PlatformCall × List String :=
  if config.enableKick then
    if env.memberInCache then
      ([.kick msg.authorId ("Automated moderation: " ++ analysis.violationType)],
       if env.kickOk then ["kicked"] else [])
    else ([], [])
  else ([], [])

/-- The "Ban user" block: guarded by `config.enableBan`; the Discord call is
made only when the member-cache lookup is truthy, always passing
`deleteMessageSeconds = 86400` and nothing else besides the reason, and
`"banned"` is pushed iff that call does not throw. -/
def banStep (config : ModConfig) (msg : Message) (analysis : ModerationResult)
    (env : Env) : List PlatformCall × List String :=
  if config.enableBan then
    if env.memberInCache then
      ([.ban msg.authorId ("Automated moderation: " ++ analysis.violationType) 86400],
       if env.banOk then ["banned"] else [])
    else ([], [])
  else ([], [])

/-- The "Custom command" block: guarded by the truthiness of
`config.customCommand`; substitutes the first `@user` and `@channel`
occurrences and sends the text to the originating channel, pushing
`"custom"` iff the send does not throw. -/
def customStep (config : ModConfig) (msg : Message) (env : Env) :
    List PlatformCall × List String :=
  if strTruthy config.customCommand then
    ([.sendChannelMessage msg.channelId
        (replaceFirst
          (replaceFirst (config.customCommand.getD "") "@user" ("<@" ++ msg.authorId ++ ">"))
          "@channel" ("<#" ++ msg.channelId ++ ">"))],
     if env.customSendOk then ["custom"] else [])
  else ([], [])

/-- The five enforcement-action blocks of the handler, in source order
(warn, log-to-channel, kick, ban, custom-command). Each block only appends
to the call list and the `actionsTaken` list, so the sequential pushes of
the source are exactly the concatenation of the blocks' contributions. -/
def executeActions (config : ModConfig) (msg : Message) (analysis : ModerationResult)
    (env : Env) : List PlatformCall × List String :=
  let w := warnStep config msg env
  let l := logStep config msg env
  let k := kickStep config msg analysis env
  let b := banStep config msg analysis env
  let c := customStep config msg env
  (w.1 ++ l.1 ++ k.1 ++ b.1 ++ c.1, w.2 ++ l.2 ++ k.2 ++ b.2 ++ c.2)

/-- The audit-entry literal the handler passes to `storage.createLog`,
combined with the fresh id and timestamp that `MemStorage.createLog`
assigns; its `actionTaken` starts as the `"logged"` sentinel. -/
def violationEntry (msg : Message) (env : Env) (analysis : ModerationResult) :
    ModerationLog :=
  { id := env.freshId
    serverId := msg.guildId.getD ""
    serverName := strDefault msg.guildName "Unknown Server"
    userId := msg.authorId
    username := msg.username
    userAvatar := msg.userAvatar
    channelId := msg.channelId
    channelName := strDefault msg.channelName "Unknown Channel"
    messageContent := msg.content
    violationType := analysis.violationType
    confidenceScore := analysis.confidenceScore
    aiReasoning := analysis.reasoning
    actionTaken := "logged"
    timestamp := env.now }

/-- The `messageCreate` handler of `startBot` (bot.ts), as a pure function of
the configuration lookup, the current log store, the message, and the
environment. Returns the final log store (the created entry is the same
object the store holds, so the later `log.actionTaken = ...` mutation is
visible in the store) and the ordered trace of observable events. -/
def handleMessageCreate (getConfig : String → Option ModConfig)
    (logs : List ModerationLog) (msg : Message) (env : Env) :
    List ModerationLog × List Event :=
  if msg.authorIsBot then (logs, []) else
  match getConfig (msg.guildId.getD "") with
  | none => (logs, [])
  | some config =>
    if !config.monitorAllChannels
        && !((config.monitoredChannels.getD []).contains msg.channelId) then
      (logs, [])
    else
      let sensitivity := jsOr config.sensitivity "medium"
      let analysis := analyzeMessage msg.content sensitivity env.analysisOutcome
      if analysis.isViolation then
        let entry := violationEntry msg env analysis
        let acts := executeActions config msg analysis env
        let finalEntry :=
          if acts.2.length > 0 then
            { entry with actionTaken := String.intercalate ", " acts.2 }
          else entry
        (logs ++ [finalEntry],
         [Event.classify msg.content sensitivity,
          Event.createLog entry,
          Event.broadcast entry]
           ++ acts.1.map Event.call
           ++ (if acts.2.length > 0 then
                 [Event.finalize (String.intercalate ", " acts.2)]
               else [])
           ++ [Event.deleteAttempt])
      else
        (logs, [Event.classify msg.content sensitivity])

/-- `MemStorage.getLogs` (storage.ts): a sorted copy of the log array,
ordered by timestamp descending (the JS comparator `b - a` under a stable
sort). -/
def MemStorage.getLogs (logs : List ModerationLog) : List ModerationLog :=
  logs.mergeSort fun a b => decide (b.timestamp ≤ a.timestamp)

/-- `MemStorage.getRecentLogs` (storage.ts): the same sorted copy, cut to the
first `limit` entries by `slice(0, limit)`; `limit` defaults to 5. -/
def MemStorage.getRecentLogs (logs : List ModerationLog) (limit : Nat := 5) :
    List ModerationLog :=
  ((logs.mergeSort fun a b => decide (b.timestamp ≤ a.timestamp)).take limit)

/-- Modelled from the spec: "authored by the system's own automated actor"
(§4.1); the bot's own messages are the bot-authored ones whose author id is
the logged-in client's user id. The code itself never compares author ids. -/
def authoredBySelf (selfUserId : String) (msg : Message) : Bool :=
  msg.authorIsBot && msg.authorId == selfUserId

/-! ## Structural lemmas about the handler and the action blocks -/

theorem warnStep_labels_sub (config : ModConfig) (msg : Message) (env : Env) :
    (warnStep config msg env).2.Sublist ["warned"] := by
  unfold warnStep
  split
  · split <;> simp
  · simp

theorem logStep_labels_sub (config : ModConfig) (msg : Message) (env : Env) :
    (logStep config msg env).2.Sublist ["logged"] := by
  unfold logStep
  split
  · cases env.logFetch
    · simp
    · simp
    · split <;> simp
  · simp

theorem kickStep_labels_sub (config : ModConfig) (msg : Message)
    (analysis : ModerationResult) (env : Env) :
    (kickStep config msg analysis env).2.Sublist ["kicked"] := by
  unfold kickStep
  split
  · split
    · split <;> simp
    · simp
  · simp

theorem banStep_labels_sub (config : ModConfig) (msg : Message)
    (analysis : ModerationResult) (env : Env) :
    (banStep config msg analysis env).2.Sublist ["banned"] := by
  unfold banStep
  split
  · split
    · split <;> simp
    · simp
  · simp

theorem customStep_labels_sub (config : ModConfig) (msg : Message) (env : Env) :
    (customStep config msg env).2.Sublist ["custom"] := by
  unfold customStep
  split
  · split <;> simp
  · simp

theorem warnStep_calls_sub (config : ModConfig) (msg : Message) (env : Env) :
    (warnStep config msg env).1.Sublist
      [PlatformCall.sendDM msg.authorId (config.warnMessage.getD "")] := by
  unfold warnStep
  split <;> simp

theorem logStep_calls_sub (config : ModConfig) (msg : Message) (env : Env) :
    (logStep config msg env).1.Sublist
      [PlatformCall.fetchChannel (config.logChannelId.getD ""),
       PlatformCall.sendChannelEmbed (config.logChannelId.getD "")] := by
  unfold logStep
  split
  · cases env.logFetch
    · simp
    · simp
    · simp
  · simp

theorem kickStep_calls_sub (config : ModConfig) (msg : Message)
    (analysis : ModerationResult) (env : Env) :
    (kickStep config msg analysis env).1.Sublist
      [PlatformCall.kick msg.authorId ("Automated moderation: " ++ analysis.violationType)] := by
  unfold kickStep
  split
  · split <;> simp
  · simp

theorem banStep_calls_sub (config : ModConfig) (msg : Message)
    (analysis : ModerationResult) (env : Env) :
    (banStep config msg analysis env).1.Sublist
      [PlatformCall.ban msg.authorId
        ("Automated moderation: " ++ analysis.violationType) 86400] := by
  unfold banStep
  split
  · split <;> simp
  · simp

theorem customStep_calls_sub (config : ModConfig) (msg : Message) (env : Env) :
    (customStep config msg env).1.Sublist
      [PlatformCall.sendChannelMessage msg.channelId
        (replaceFirst
          (replaceFirst (config.customCommand.getD "") "@user" ("<@" ++ msg.authorId ++ ">"))
          "@channel" ("<#" ++ msg.channelId ++ ">"))] := by
  unfold customStep
  split <;> simp

theorem kickStep_of_noMember (config : ModConfig) (msg : Message)
    (analysis : ModerationResult) (env : Env) (h : env.memberInCache = false) :
    kickStep config msg analysis env = ([], []) := by
  unfold kickStep
  split
  · simp [h]
  · rfl

theorem banStep_of_noMember (config : ModConfig) (msg : Message)
    (analysis : ModerationResult) (env : Env) (h : env.memberInCache = false) :
    banStep config msg analysis env = ([], []) := by
  unfold banStep
  split
  · simp [h]
  · rfl

theorem kickStep_labels_of_kickFail (config : ModConfig) (msg : Message)
    (analysis : ModerationResult) (env : Env) (h : env.kickOk = false) :
    (kickStep config msg analysis env).2 = [] := by
  unfold kickStep
  split
  · split
    · simp [h]
    · rfl
  · rfl

/-- Trace and store produced by the handler on a violation verdict, given that
the author filter and the configuration filter both pass. -/
theorem handleMessageCreate_violation (getConfig : String → Option ModConfig)
    (logs : List ModerationLog) (msg : Message) (env : Env) (config : ModConfig)
    (hbot : msg.authorIsBot = false)
    (hcfg : getConfig (msg.guildId.getD "") = some config)
    (hmon : (!config.monitorAllChannels
        && !((config.monitoredChannels.getD []).contains msg.channelId)) = false)
    (hviol : (analyzeMessage msg.content (jsOr config.sensitivity "medium")
        env.analysisOutcome).isViolation = true) :
    handleMessageCreate getConfig logs msg env =
      (logs ++ [if (executeActions config msg
            (analyzeMessage msg.content (jsOr config.sensitivity "medium")
              env.analysisOutcome) env).2.length > 0 then
          { violationEntry msg env
              (analyzeMessage msg.content (jsOr config.sensitivity "medium")
                env.analysisOutcome) with
            actionTaken := String.intercalate ", "
              (executeActions config msg
                (analyzeMessage msg.content (jsOr config.sensitivity "medium")
                  env.analysisOutcome) env).2 }
        else violationEntry msg env
          (analyzeMessage msg.content (jsOr config.sensitivity "medium")
            env.analysisOutcome)],
       Event.classify msg.content (jsOr config.sensitivity "medium")
         :: Event.createLog (violationEntry msg env
              (analyzeMessage msg.content (jsOr config.sensitivity "medium")
                env.analysisOutcome))
         :: Event.broadcast (violationEntry msg env
              (analyzeMessage msg.content (jsOr config.sensitivity "medium")
                env.analysisOutcome))
         :: ((executeActions config msg
               (analyzeMessage msg.content (jsOr config.sensitivity "medium")
                 env.analysisOutcome) env).1.map Event.call
             ++ (if (executeActions config msg
                   (analyzeMessage msg.content (jsOr config.sensitivity "medium")
                     env.analysisOutcome) env).2.length > 0 then
                   [Event.finalize (String.intercalate ", "
                     (executeActions config msg
                       (analyzeMessage msg.content (jsOr config.sensitivity "medium")
                         env.analysisOutcome) env).2)]
                 else [])
             ++ [Event.deleteAttempt])) := by
  unfold handleMessageCreate
  simp [hbot, hcfg, hviol]
  intro hAll
  have hb := hmon
  simp [hAll] at hb
  exact hb

/-- Trace and store produced by the handler on a non-violation verdict, given
that the author filter and the configuration filter both pass. -/
theorem handleMessageCreate_noViolation (getConfig : String → Option ModConfig)
    (logs : List ModerationLog) (msg : Message) (env : Env) (config : ModConfig)
    (hbot : msg.authorIsBot = false)
    (hcfg : getConfig (msg.guildId.getD "") = some config)
    (hmon : (!config.monitorAllChannels
        && !((config.monitoredChannels.getD []).contains msg.channelId)) = false)
    (hviol : (analyzeMessage msg.content (jsOr config.sensitivity "medium")
        env.analysisOutcome).isViolation = false) :
    handleMessageCreate getConfig logs msg env =
      (logs, [Event.classify msg.content (jsOr config.sensitivity "medium")]) := by
  unfold handleMessageCreate
  simp [hbot, hcfg, hviol]
  intro hAll
  have hb := hmon
  simp [hAll] at hb
  exact hb

/-! ## Concrete sample data for witnesses -/

def sampleMsg : Message :=
  { authorIsBot := false
    authorId := "u1"
    username := "alice"
    userAvatar := none
    guildId := some "g1"
    guildName := some "Guild One"
    channelId := "c1"
    channelName := some "general"
    content := "BUY CRYPTO NOW CLICK HERE" }

def sampleRawViolation : RawResult :=
  { isViolation := some true
    violationType := some "spam"
    confidenceScore := some 95
    reasoning := some "Promotional spam" }

def sampleEnv : Env :=
  { analysisOutcome := .success sampleRawViolation
    freshId := "log-1"
    now := 1000
    dmOk := true
    logFetch := .found
    logSendOk := true
    memberInCache := true
    kickOk := true
    banOk := true
    customSendOk := true
    deleteOk := true }

def sampleConfig : ModConfig :=
  { id := "cfg-1"
    serverId := "g1"
    serverName := "Guild One"
    sensitivity := "strict"
    primaryAction := "log"
    enableWarn := true
    warnMessage := some "Please be respectful"
    enableLog := true
    logChannelId := some "mod-log"
    enableKick := false
    enableBan := false
    banDuration := none
    customCommand := none
    monitoredChannels := some []
    monitorAllChannels := true }

def sampleGetConfig : String → Option ModConfig :=
  fun s => if s == "g1" then some sampleConfig else none

/-! ## Claims -/

/-- C4: whenever the classification round trip fails (transport error,
timeout, or parse failure, i.e. the `try` block throws), `analyzeMessage`
returns — rather than throws — the safe default verdict: no violation,
type `"none"`, confidence 0, and the fixed failure-reporting reasoning
string. -/
theorem analyzeMessage_failOpen (message sensitivity : String) :
    analyzeMessage message sensitivity .failure =
      { isViolation := false
        violationType := "none"
        confidenceScore := 0
        reasoning := "Error analyzing message" } := rfl

/-- C9: for every log store and every `n`, `getRecentLogs n` is exactly the
first `n` entries of `getLogs` (in particular `getRecentLogs 0 = []`), and
`getLogs` is ordered by timestamp descending. -/
theorem getRecentLogs_prefix_of_getLogs (logs : List ModerationLog) (n : Nat) :
    MemStorage.getRecentLogs logs n = (MemStorage.getLogs logs).take n ∧
    MemStorage.getRecentLogs logs 0 = [] ∧
    (MemStorage.getLogs logs).Pairwise (fun a b => b.timestamp ≤ a.timestamp) := by
  refine ⟨rfl, rfl, ?_⟩
  have h := List.sorted_mergeSort
    (fun (a b c : ModerationLog) (hab : decide (b.timestamp ≤ a.timestamp) = true)
         (hbc : decide (c.timestamp ≤ b.timestamp) = true) =>
       decide_eq_true (Nat.le_trans (of_decide_eq_true hbc) (of_decide_eq_true hab)))
    (fun a b => by
      rcases Nat.le_total b.timestamp a.timestamp with h | h <;> simp [h])
    logs
  simp only [decide_eq_true_eq] at h
  exact h

/-- C3: when the server has no configuration the handler discards the message
with no classification call and no audit entry; and when the configuration
monitors only listed channels and the channel is not listed, no
classification call occurs. -/
theorem unconfigured_or_unmonitored_discard (getConfig : String → Option ModConfig)
    (logs : List ModerationLog) (msg : Message) (env : Env) :
    (getConfig (msg.guildId.getD "") = none →
      (handleMessageCreate getConfig logs msg env).1 = logs ∧
      ∀ e ∈ (handleMessageCreate getConfig logs msg env).2,
        e.isClassify = false ∧ e.isCreateLog = false) ∧
    (∀ config, getConfig (msg.guildId.getD "") = some config →
      config.monitorAllChannels = false →
      (config.monitoredChannels.getD []).contains msg.channelId = false →
      ∀ e ∈ (handleMessageCreate getConfig logs msg env).2, e.isClassify = false) := by
  constructor
  · intro h
    unfold handleMessageCreate
    cases hb : msg.authorIsBot <;> simp [h]
  · intro config hcfg hall hmem
    have hmem' : msg.channelId ∉ config.monitoredChannels.getD [] := by
      simpa using hmem
    unfold handleMessageCreate
    cases hb : msg.authorIsBot <;> simp [hcfg, hall, hmem']

/-- C8: the handler never reads `primaryAction`: rewriting every stored
configuration's `primaryAction` to an arbitrary value changes nothing about
the handler's behaviour — same final store, same event trace (hence same
classification calls, audit entries, broadcasts, and platform calls). -/
theorem primaryAction_never_read (getConfig : String → Option ModConfig)
    (logs : List ModerationLog) (msg : Message) (env : Env) (p : String) :
    handleMessageCreate
        (fun s => (getConfig s).map fun c => { c with primaryAction := p })
        logs msg env
      = handleMessageCreate getConfig logs msg env := by
  unfold handleMessageCreate
  cases hb : msg.authorIsBot
  · cases hc : getConfig (msg.guildId.getD "") <;>
      simp [hc, violationEntry, executeActions, warnStep, logStep, kickStep,
        banStep, customStep]
  · simp

/-- C2: for every violating message, exactly one audit entry is created; it is
persisted (the store grows by one entry), it carries the `"logged"` sentinel
at creation, the broadcast of that same entry is the event immediately after
the creation, and every enforcement-action call comes strictly later. -/
theorem audit_before_actions_broadcast_immediate
    (getConfig : String → Option ModConfig) (logs : List ModerationLog)
    (msg : Message) (env : Env) (config : ModConfig)
    (hbot : msg.authorIsBot = false)
    (hcfg : getConfig (msg.guildId.getD "") = some config)
    (hmon : (!config.monitorAllChannels
        && !((config.monitoredChannels.getD []).contains msg.channelId)) = false)
    (hviol : (analyzeMessage msg.content (jsOr config.sensitivity "medium")
        env.analysisOutcome).isViolation = true) :
    ((handleMessageCreate getConfig logs msg env).2.countP Event.isCreateLog) = 1 ∧
    (handleMessageCreate getConfig logs msg env).1.length = logs.length + 1 ∧
    (∃ e, (handleMessageCreate getConfig logs msg env).2.get? 1
          = some (Event.createLog e) ∧
      e.actionTaken = "logged" ∧
      (handleMessageCreate getConfig logs msg env).2.get? 2
          = some (Event.broadcast e)) ∧
    (∀ j c, (handleMessageCreate getConfig logs msg env).2.get? j
        = some (Event.call c) → 2 < j) := by
  rw [handleMessageCreate_violation getConfig logs msg env config hbot hcfg hmon hviol]
  refine ⟨?_, ?_, ⟨_, rfl, rfl, rfl⟩, ?_⟩
  · simp only [List.countP_cons, List.countP_append, List.countP_map]
    split <;>
      simp [Event.isCreateLog, List.countP_eq_zero, Function.comp]
  · simp
  · rintro j c h
    rcases j with _ | _ | _ | j
    · simp at h
    · simp at h
    · simp at h
    · omega

/-- C5: after the handler finishes, the persisted audit entry's `actionTaken`
is the succeeded labels of the executor joined in execution order, or the
`"logged"` sentinel when no action succeeded. -/
theorem actionsTaken_finalized
    (getConfig : String → Option ModConfig) (logs : List ModerationLog)
    (msg : Message) (env : Env) (config : ModConfig)
    (hbot : msg.authorIsBot = false)
    (hcfg : getConfig (msg.guildId.getD "") = some config)
    (hmon : (!config.monitorAllChannels
        && !((config.monitoredChannels.getD []).contains msg.channelId)) = false)
    (hviol : (analyzeMessage msg.content (jsOr config.sensitivity "medium")
        env.analysisOutcome).isViolation = true) :
    ∃ e, (handleMessageCreate getConfig logs msg env).1 = logs ++ [e] ∧
      e.actionTaken =
        (if (executeActions config msg
              (analyzeMessage msg.content (jsOr config.sensitivity "medium")
                env.analysisOutcome) env).2 = [] then "logged"
         else String.intercalate ", "
           (executeActions config msg
             (analyzeMessage msg.content (jsOr config.sensitivity "medium")
               env.analysisOutcome) env).2) := by
  rw [handleMessageCreate_violation getConfig logs msg env config hbot hcfg hmon hviol]
  refine ⟨_, rfl, ?_⟩
  rcases h : (executeActions config msg
      (analyzeMessage msg.content (jsOr config.sensitivity "medium")
        env.analysisOutcome) env).2 with _ | ⟨a, l⟩
  · simp [h, violationEntry]
  · simp [h]

/-- C10: for a violating message whose author is not in the guild member
cache, the kick and ban blocks issue no platform call (so no kick or ban
call appears anywhere in the trace) and contribute neither `"kicked"` nor
`"banned"` to the success list, even when both actions are enabled. -/
theorem noCachedMember_no_kick_no_ban
    (getConfig : String → Option ModConfig) (logs : List ModerationLog)
    (msg : Message) (env : Env) (config : ModConfig)
    (hbot : msg.authorIsBot = false)
    (hcfg : getConfig (msg.guildId.getD "") = some config)
    (hmon : (!config.monitorAllChannels
        && !((config.monitoredChannels.getD []).contains msg.channelId)) = false)
    (hviol : (analyzeMessage msg.content (jsOr config.sensitivity "medium")
        env.analysisOutcome).isViolation = true)
    (hm : env.memberInCache = false) :
    (∀ c, Event.call c ∈ (handleMessageCreate getConfig logs msg env).2 →
      c.isKickCall = false ∧ c.isBanCall = false) ∧
    "kicked" ∉ (executeActions config msg
        (analyzeMessage msg.content (jsOr config.sensitivity "medium")
          env.analysisOutcome) env).2 ∧
    "banned" ∉ (executeActions config msg
        (analyzeMessage msg.content (jsOr config.sensitivity "medium")
          env.analysisOutcome) env).2 := by
  have hacts : executeActions config msg
      (analyzeMessage msg.content (jsOr config.sensitivity "medium")
        env.analysisOutcome) env =
      ((warnStep config msg env).1 ++ (logStep config msg env).1
         ++ (customStep config msg env).1,
       (warnStep config msg env).2 ++ (logStep config msg env).2
         ++ (customStep config msg env).2) := by
    simp [executeActions, kickStep_of_noMember _ _ _ _ hm,
      banStep_of_noMember _ _ _ _ hm]
  refine ⟨?_, ?_, ?_⟩
  · intro c hc
    rw [handleMessageCreate_violation getConfig logs msg env config hbot hcfg hmon
      hviol] at hc
    rw [hacts] at hc
    simp only [List.mem_cons, List.mem_append, List.mem_map] at hc
    rcases hc with h | h | h | ((⟨x, hx, hxc⟩ | hB) | (hC | hD))
    · simp at h
    · simp at h
    · simp at h
    · obtain rfl : x = c := by injection hxc
      rcases hx with (hx | hx) | hx
      · have := (warnStep_calls_sub config msg env).subset hx
        simp only [List.mem_cons, List.not_mem_nil, or_false] at this
        subst this
        exact ⟨rfl, rfl⟩
      · have := (logStep_calls_sub config msg env).subset hx
        simp only [List.mem_cons, List.not_mem_nil, or_false] at this
        rcases this with h | h <;> subst h <;> exact ⟨rfl, rfl⟩
      · have := (customStep_calls_sub config msg env).subset hx
        simp only [List.mem_cons, List.not_mem_nil, or_false] at this
        subst this
        exact ⟨rfl, rfl⟩
    · revert hB
      split <;> simp
    · simp at hC
    · simp at hD
  · intro hmem
    rw [hacts] at hmem
    simp only [List.mem_append] at hmem
    rcases hmem with (h | h) | h
    · simpa using (warnStep_labels_sub config msg env).subset h
    · simpa using (logStep_labels_sub config msg env).subset h
    · simpa using (customStep_labels_sub config msg env).subset h
  · intro hmem
    rw [hacts] at hmem
    simp only [List.mem_append] at hmem
    rcases hmem with (h | h) | h
    · simpa using (warnStep_labels_sub config msg env).subset h
    · simpa using (logStep_labels_sub config msg env).subset h
    · simpa using (customStep_labels_sub config msg env).subset h

/-- C6: the five enforcement blocks are attempted in the fixed source order
warn → log-to-channel → kick → ban → custom-command (both the attempted
calls and the success labels are ordered sublists of the fixed full lists),
and the blocks are independent: when the kick call fails, the enabled warn
and log-to-channel blocks are still attempted and their labels still appear
in the success list when their own calls succeed, while `"kicked"` does not. -/
theorem actions_fixed_order_and_independent
    (config : ModConfig) (msg : Message) (analysis : ModerationResult) :
    (∀ env : Env,
      (executeActions config msg analysis env).2.Sublist
        ["warned", "logged", "kicked", "banned", "custom"]) ∧
    (∀ env : Env,
      (executeActions config msg analysis env).1.Sublist
        [PlatformCall.sendDM msg.authorId (config.warnMessage.getD ""),
         PlatformCall.fetchChannel (config.logChannelId.getD ""),
         PlatformCall.sendChannelEmbed (config.logChannelId.getD ""),
         PlatformCall.kick msg.authorId
           ("Automated moderation: " ++ analysis.violationType),
         PlatformCall.ban msg.authorId
           ("Automated moderation: " ++ analysis.violationType) 86400,
         PlatformCall.sendChannelMessage msg.channelId
           (replaceFirst
             (replaceFirst (config.customCommand.getD "") "@user"
               ("<@" ++ msg.authorId ++ ">"))
             "@channel" ("<#" ++ msg.channelId ++ ">"))]) ∧
    (∀ env : Env, env.kickOk = false →
      "kicked" ∉ (executeActions config msg analysis env).2 ∧
      (config.enableWarn = true → strTruthy config.warnMessage = true →
        PlatformCall.sendDM msg.authorId (config.warnMessage.getD "")
          ∈ (executeActions config msg analysis env).1 ∧
        (env.dmOk = true → "warned" ∈ (executeActions config msg analysis env).2)) ∧
      (config.enableLog = true → strTruthy config.logChannelId = true →
        env.logFetch = FetchOutcome.found →
        PlatformCall.sendChannelEmbed (config.logChannelId.getD "")
          ∈ (executeActions config msg analysis env).1 ∧
        (env.logSendOk = true →
          "logged" ∈ (executeActions config msg analysis env).2))) := by
  refine ⟨?_, ?_, ?_⟩
  · intro env
    have h := (warnStep_labels_sub config msg env).append
      ((logStep_labels_sub config msg env).append
        ((kickStep_labels_sub config msg analysis env).append
          ((banStep_labels_sub config msg analysis env).append
            (customStep_labels_sub config msg env))))
    simpa [executeActions] using h
  · intro env
    have h := (warnStep_calls_sub config msg env).append
      ((logStep_calls_sub config msg env).append
        ((kickStep_calls_sub config msg analysis env).append
          ((banStep_calls_sub config msg analysis env).append
            (customStep_calls_sub config msg env))))
    simpa [executeActions] using h
  · intro env hk
    refine ⟨?_, ?_, ?_⟩
    · intro hmem
      have hkick := kickStep_labels_of_kickFail config msg analysis env hk
      simp only [executeActions, List.mem_append, hkick, List.not_mem_nil] at hmem
      rcases hmem with (((h | h) | h) | h) | h
      · simpa using (warnStep_labels_sub config msg env).subset h
      · simpa using (logStep_labels_sub config msg env).subset h
      · exact h
      · simpa using (banStep_labels_sub config msg analysis env).subset h
      · simpa using (customStep_labels_sub config msg env).subset h
    · intro hw hwm
      constructor
      · simp [executeActions, warnStep, hw, hwm]
      · intro hdm
        simp [executeActions, warnStep, hw, hwm, hdm]
    · intro hl hlc hfetch
      constructor
      · simp [executeActions, logStep, hl, hlc, hfetch]
      · intro hsend
        simp [executeActions, logStep, hl, hlc, hfetch, hsend]

/-- C7 (amended): messages authored by any bot account — not only the
system's own — are excluded from processing; every message from a non-bot
author that passes the configuration filter is classified, and on a
violation verdict the record, notify and delete steps all happen. -/
theorem botAuthors_excluded_rest_processed
    (getConfig : String → Option ModConfig) (logs : List ModerationLog)
    (env : Env) :
    (∀ msg : Message, msg.authorIsBot = true →
      handleMessageCreate getConfig logs msg env = (logs, [])) ∧
    (∀ (msg : Message) (config : ModConfig), msg.authorIsBot = false →
      getConfig (msg.guildId.getD "") = some config →
      (!config.monitorAllChannels
        && !((config.monitoredChannels.getD []).contains msg.channelId)) = false →
      Event.classify msg.content (jsOr config.sensitivity "medium")
        ∈ (handleMessageCreate getConfig logs msg env).2 ∧
      ((analyzeMessage msg.content (jsOr config.sensitivity "medium")
          env.analysisOutcome).isViolation = true →
        (∃ e, Event.createLog e ∈ (handleMessageCreate getConfig logs msg env).2 ∧
          Event.broadcast e ∈ (handleMessageCreate getConfig logs msg env).2) ∧
        Event.deleteAttempt ∈ (handleMessageCreate getConfig logs msg env).2)) := by
  constructor
  · intro msg hbot
    unfold handleMessageCreate
    simp [hbot]
  · intro msg config hbot hcfg hmon
    cases hvq : (analyzeMessage msg.content (jsOr config.sensitivity "medium")
        env.analysisOutcome).isViolation with
    | false =>
      rw [handleMessageCreate_noViolation getConfig logs msg env config hbot hcfg
        hmon hvq]
      constructor
      · simp
      · intro h
        simp [hvq] at h
    | true =>
      rw [handleMessageCreate_violation getConfig logs msg env config hbot hcfg
        hmon hvq]
      constructor
      · simp
      · intro _
        refine ⟨⟨violationEntry msg env
          (analyzeMessage msg.content (jsOr config.sensitivity "medium")
            env.analysisOutcome), ?_, ?_⟩, ?_⟩ <;> simp

/-- The configurations and environments the witnesses instantiate at. -/
def otherBotMsg : Message :=
  { sampleMsg with authorIsBot := true, authorId := "bot-2", username := "OtherBot" }

def offChannelConfig : ModConfig :=
  { sampleConfig with monitorAllChannels := false, monitoredChannels := some ["c9"] }

def offGetConfig : String → Option ModConfig :=
  fun s => if s == "g1" then some offChannelConfig else none

def kickFailEnv : Env := { sampleEnv with kickOk := false }

def noMemberEnv : Env := { sampleEnv with memberInCache := false }

def kickBanConfig : ModConfig :=
  { sampleConfig with enableKick := true, enableBan := true }

def kbGetConfig : String → Option ModConfig :=
  fun s => if s == "g1" then some kickBanConfig else none

def banOnlyConfig : ModConfig :=
  { sampleConfig with
    enableWarn := false
    enableLog := false
    enableBan := true
    banDuration := some 24 }

def spamAnalysis : ModerationResult :=
  { isViolation := true
    violationType := "spam"
    confidenceScore := 95
    reasoning := "Promotional spam" }

/-- C7 counterexample: a message authored by a bot that is not the system's
own automated actor, in a configured server monitoring all channels, whose
content the classifier would judge a violation, is nevertheless discarded
with no classification, no audit entry and no action — so exclusion is not
limited to the system's own actor. -/
theorem nonSelf_bot_message_still_excluded :
    authoredBySelf "bot-self" otherBotMsg = false ∧
    sampleGetConfig (otherBotMsg.guildId.getD "") = some sampleConfig ∧
    sampleConfig.monitorAllChannels = true ∧
    (analyzeMessage otherBotMsg.content (jsOr sampleConfig.sensitivity "medium")
      sampleEnv.analysisOutcome).isViolation = true ∧
    handleMessageCreate sampleGetConfig [] otherBotMsg sampleEnv = ([], []) :=
  ⟨rfl, rfl, rfl, rfl, rfl⟩

/-- C1 (code-bug evidence): with a configured ban duration of 24 hours, a
violating message from a cached member yields exactly one ban call, carrying
only the reason and the fixed 86400-second message-history purge — no
duration — and the executor's entire behaviour is unchanged under any value
of `banDuration`: the removal is always permanent. -/
theorem ban_always_permanent_ignores_banDuration :
    banOnlyConfig.banDuration = some 24 ∧
    executeActions banOnlyConfig sampleMsg spamAnalysis sampleEnv =
      ([PlatformCall.ban "u1" "Automated moderation: spam" 86400], ["banned"]) ∧
    (∀ d : Option Int,
      executeActions { banOnlyConfig with banDuration := d }
          sampleMsg spamAnalysis sampleEnv
        = executeActions banOnlyConfig sampleMsg spamAnalysis sampleEnv) :=
  ⟨rfl, rfl, fun _ => rfl⟩

/-! ## Witnesses -/

/-- C2 witness: at the sample violating message the trace carries exactly one
entry-creation event. -/
theorem audit_before_actions_broadcast_immediate_witness :
    ((handleMessageCreate sampleGetConfig [] sampleMsg sampleEnv).2.countP
      Event.isCreateLog) = 1 :=
  (audit_before_actions_broadcast_immediate sampleGetConfig [] sampleMsg sampleEnv
    sampleConfig rfl rfl rfl rfl).1

/-- C3 witness: a server with no configuration, and a configuration
monitoring only other channels, both discard the sample message. -/
theorem unconfigured_or_unmonitored_discard_witness :
    ((handleMessageCreate (fun _ => none) [] sampleMsg sampleEnv).1 = [] ∧
      ∀ e ∈ (handleMessageCreate (fun _ => none) [] sampleMsg sampleEnv).2,
        e.isClassify = false ∧ e.isCreateLog = false) ∧
    (∀ e ∈ (handleMessageCreate offGetConfig [] sampleMsg sampleEnv).2,
      e.isClassify = false) :=
  ⟨(unconfigured_or_unmonitored_discard (fun _ => none) [] sampleMsg sampleEnv).1 rfl,
   (unconfigured_or_unmonitored_discard offGetConfig [] sampleMsg sampleEnv).2
     offChannelConfig rfl rfl rfl⟩

/-- C5 witness: at the sample violating message the store grows by exactly
the finalized entry. -/
theorem actionsTaken_finalized_witness :
    ∃ e, (handleMessageCreate sampleGetConfig [] sampleMsg sampleEnv).1 = [] ++ [e] ∧
      e.actionTaken =
        (if (executeActions sampleConfig sampleMsg
              (analyzeMessage sampleMsg.content (jsOr sampleConfig.sensitivity "medium")
                sampleEnv.analysisOutcome) sampleEnv).2 = [] then "logged"
         else String.intercalate ", "
           (executeActions sampleConfig sampleMsg
             (analyzeMessage sampleMsg.content (jsOr sampleConfig.sensitivity "medium")
               sampleEnv.analysisOutcome) sampleEnv).2) :=
  actionsTaken_finalized sampleGetConfig [] sampleMsg sampleEnv sampleConfig
    rfl rfl rfl rfl

/-- C6 witness: with the kick call failing, the enabled warn action still
succeeds and appears in the success list. -/
theorem actions_fixed_order_and_independent_witness :
    "warned" ∈ (executeActions sampleConfig sampleMsg spamAnalysis kickFailEnv).2 :=
  ((((actions_fixed_order_and_independent sampleConfig sampleMsg spamAnalysis).2.2
    kickFailEnv rfl).2.1 rfl rfl).2 rfl)

/-- C7 witness: the sample bot-authored message is excluded and the sample
human-authored message is classified. -/
theorem botAuthors_excluded_rest_processed_witness :
    handleMessageCreate sampleGetConfig [] otherBotMsg sampleEnv = ([], []) ∧
    Event.classify sampleMsg.content (jsOr sampleConfig.sensitivity "medium")
      ∈ (handleMessageCreate sampleGetConfig [] sampleMsg sampleEnv).2 :=
  ⟨(botAuthors_excluded_rest_processed sampleGetConfig [] sampleEnv).1 otherBotMsg rfl,
   ((botAuthors_excluded_rest_processed sampleGetConfig [] sampleEnv).2 sampleMsg
     sampleConfig rfl rfl rfl).1⟩

/-- C10 witness: with kick and ban enabled but the author missing from the
member cache, `"kicked"` is absent from the success list. -/
theorem noCachedMember_no_kick_no_ban_witness :
    "kicked" ∉ (executeActions kickBanConfig sampleMsg
      (analyzeMessage sampleMsg.content (jsOr kickBanConfig.sensitivity "medium")
        noMemberEnv.analysisOutcome) noMemberEnv).2 :=
  (noCachedMember_no_kick_no_ban kbGetConfig [] sampleMsg noMemberEnv kickBanConfig
    rfl rfl rfl rfl rfl).2.1
